import Mathlib

/-!
A shallow embedding of the AB1805 RTC/watchdog driver (AB1805_RK.cpp /
AB1805_RK.h) in Lean 4, together with theorems settling the spec claims.

Modelling conventions:
* Register values and register addresses are `Nat`s; every value the real
  device produces is a byte (0-255), and theorems add `< 256` bounds where a
  proof needs them.
* `struct tm` calendar fields are C `int`s; every field handled by the
  library's conversion routines is nonnegative in all uses considered here
  (documented field ranges), so they are modelled as `Nat`.
* I2C bus traffic is modelled by an explicit state (`Bus`): a register file,
  a running transaction index, and a trace of attempted transactions.  A
  failure oracle `f : Nat → Bool` says whether the n-th transaction on the
  bus succeeds (`true`) or fails (`false`), which models the
  `endTransmission`/`requestFrom` status checks in
  `readRegisters`/`writeRegisters`.
-/

namespace AB1805

/-! ### Register addresses and bit masks (from AB1805_RK.h) -/

def REG_HUNDREDTH : Nat := 0x00
def REG_HUNDREDTH_ALARM : Nat := 0x08
def REG_STATUS : Nat := 0x0f
def REG_STATUS_WDT : Nat := 0x20
def REG_STATUS_TIM : Nat := 0x08
def REG_STATUS_ALM : Nat := 0x04
def REG_STATUS_DEFAULT : Nat := 0x00
def REG_CTRL_1 : Nat := 0x10
def REG_CTRL_1_STOP : Nat := 0x80
def REG_CTRL_1_OUT : Nat := 0x10
def REG_CTRL_1_RSP : Nat := 0x08
def REG_CTRL_1_PWR2 : Nat := 0x02
def REG_CTRL_1_WRTC : Nat := 0x01
def REG_CTRL_1_DEFAULT : Nat := 0x13
def REG_CTRL_2 : Nat := 0x11
def REG_CTRL_2_OUT2S_MASK : Nat := 0x1c
def REG_CTRL_2_OUT2S_SLEEP : Nat := 0x18
def REG_CTRL_2_OUT1S_MASK : Nat := 0x03
def REG_CTRL_2_OUT1S_nIRQ : Nat := 0x00
def REG_CTRL_2_OUT1S_SQW : Nat := 0x01
def REG_CTRL_2_OUT1S_nAIRQ : Nat := 0x03
def REG_CTRL_2_DEFAULT : Nat := 0x3c
def REG_INT_MASK : Nat := 0x12
def REG_INT_MASK_TIE : Nat := 0x08
def REG_INT_MASK_AIE : Nat := 0x04
def REG_INT_MASK_DEFAULT : Nat := 0xe0
def REG_SQW : Nat := 0x13
def REG_SQW_DEFAULT : Nat := 0x26
def REG_SLEEP_CTRL : Nat := 0x17
def REG_SLEEP_CTRL_SLP : Nat := 0x80
def REG_SLEEP_CTRL_SLRES : Nat := 0x40
def REG_SLEEP_CTRL_SLST : Nat := 0x08
def REG_SLEEP_CTRL_DEFAULT : Nat := 0x00
def REG_TIMER_CTRL : Nat := 0x18
def REG_TIMER_CTRL_TE : Nat := 0x80
def REG_TIMER_CTRL_RPT_MASK : Nat := 0x1c
def REG_TIMER_CTRL_RPT_DATE : Nat := 0x08
def REG_TIMER_CTRL_TFS_1 : Nat := 0x02
def REG_TIMER_CTRL_TFS_1_60 : Nat := 0x03
def REG_TIMER_CTRL_DEFAULT : Nat := 0x23
def REG_TIMER : Nat := 0x19
def REG_TIMER_DEFAULT : Nat := 0x00
def REG_TIMER_INITIAL : Nat := 0x1a
def REG_TIMER_INITIAL_DEFAULT : Nat := 0x00
def REG_WDT : Nat := 0x1b
def REG_WDT_RESET : Nat := 0x80
def REG_WDT_WRB_1_4_HZ : Nat := 0x03
def REG_WDT_DEFAULT : Nat := 0x00
def REG_OSC_CTRL : Nat := 0x1c
def REG_OSC_CTRL_OSEL : Nat := 0x80
def REG_OSC_CTRL_FOS : Nat := 0x08
def REG_OSC_CTRL_PWGT : Nat := 0x04
def REG_OSC_CTRL_DEFAULT : Nat := 0x00
def REG_TRICKLE : Nat := 0x20
def REG_TRICKLE_DEFAULT : Nat := 0x00
def REG_BREF_CTRL : Nat := 0x21
def REG_BREF_CTRL_DEFAULT : Nat := 0xf0
def REG_AFCTRL : Nat := 0x26
def REG_AFCTRL_DEFAULT : Nat := 0x00
def REG_BATMODE_IO : Nat := 0x27
def REG_BATMODE_IO_DEFAULT : Nat := 0x80
def REG_OCTRL : Nat := 0x30
def REG_OCTRL_O1EN : Nat := 0x01
def REG_OCTRL_DEFAULT : Nat := 0x00
def REG_EXT_ADDR : Nat := 0x3f
def REG_EXT_ADDR_XADA : Nat := 0x04
def REG_ALT_RAM : Nat := 0x80

/-- C `~mask` truncated back to a `uint8_t` argument (the driver always
applies `~` to byte-sized masks before passing them to `maskRegister`). -/
def compl8 (m : Nat) : Nat := 255 - m % 256

/-! ### BCD conversion (AB1805::bcdToValue / AB1805::valueToBcd) -/

/-- Model of `int AB1805::bcdToValue(uint8_t bcd)`: `(bcd >> 4) * 10 + (bcd & 0x0f)`. -/
def bcdToValue (bcd : Nat) : Nat := (bcd >>> 4) * 10 + (bcd &&& 0x0f)

/-- Model of `uint8_t AB1805::valueToBcd(int value)`:
`tens = (value / 10) % 10; ones = value % 10; (tens << 4) | ones`.
The C argument is an `int`; every call site in the library passes a
nonnegative value, where C and ℕ arithmetic agree. -/
def valueToBcd (value : Nat) : Nat :=
  let tens := (value / 10) % 10
  let ones := value % 10
  (tens <<< 4) ||| ones

/-! ### Calendar time (struct tm) and register conversion -/

/-- The `struct tm` fields the driver reads and writes.  (`tm_yday` and
`tm_isdst` are never touched by the library and are omitted.)  C `int`
fields are modelled as `Nat`: all documented field ranges are nonnegative. -/
structure Tm where
  tm_sec : Nat
  tm_min : Nat
  tm_hour : Nat
  tm_mday : Nat
  tm_mon : Nat
  tm_year : Nat
  tm_wday : Nat
deriving DecidableEq, Repr

/-- Model of `memset(timeptr, 0, sizeof(*timeptr))`: the all-zero calendar value. -/
def zeroTm : Tm := ⟨0, 0, 0, 0, 0, 0, 0⟩

/-- Model of `AB1805::tmToRegisters(const struct tm *timeptr, uint8_t *array, bool includeYear)`:
the bytes written to `array`, in order (seconds, minutes, hours, day of
month, month+1, [year % 100 when `includeYear`], weekday). -/
def tmToRegisters (timeptr : Tm) (includeYear : Bool) : List Nat :=
  [valueToBcd timeptr.tm_sec,
   valueToBcd timeptr.tm_min,
   valueToBcd timeptr.tm_hour,
   valueToBcd timeptr.tm_mday,
   valueToBcd (timeptr.tm_mon + 1)]
  ++ (if includeYear then [valueToBcd (timeptr.tm_year % 100)] else [])
  ++ [valueToBcd timeptr.tm_wday]

/-- Model of `AB1805::registersToTm(const uint8_t *array, struct tm *timeptr, bool includeYear)`:
decodes the register bytes into the fields of `timeptr`, leaving `tm_year`
untouched when `includeYear` is false.  `tm_mon` is decoded as
`bcdToValue(*p) - 1` (the month byte is ≥ 1 in every run considered, where
ℕ and C subtraction agree) and `tm_year` as `bcdToValue(*p) + 100`. -/
def registersToTm (array : List Nat) (timeptr : Tm) (includeYear : Bool) : Tm :=
  { tm_sec := bcdToValue (array.getD 0 0)
    tm_min := bcdToValue (array.getD 1 0)
    tm_hour := bcdToValue (array.getD 2 0)
    tm_mday := bcdToValue (array.getD 3 0)
    tm_mon := bcdToValue (array.getD 4 0) - 1
    tm_year := if includeYear then bcdToValue (array.getD 5 0) + 100 else timeptr.tm_year
    tm_wday := bcdToValue (array.getD (if includeYear then 6 else 5) 0) }

/-! ### The I2C bus model -/

def RESET_PRESERVE_REPEATING_TIMER : Nat := 0x00000001
def RESET_DISABLE_XT : Nat := 0x00000002

/-- One attempted I2C transaction (one `endTransmission`/`requestFrom`
sequence in `readRegisters`/`writeRegisters`). -/
inductive Op where
  | read (regAddr num : Nat)
  | write (regAddr : Nat) (values : List Nat)
deriving DecidableEq, Repr

/-- Bus state: the device's register file, the index of the next transaction
(used to consult the failure oracle), and the log of transactions attempted
so far. -/
structure Bus where
  regs : Nat → Nat
  opIndex : Nat
  trace : List Op

/-- The failure oracle: `f n = true` means the n-th bus transaction
succeeds. -/
abbrev Oracle := Nat → Bool

/-- The initial bus state over a register file. -/
def mkBus (regs : Nat → Nat) : Bus := ⟨regs, 0, []⟩

/-- Overwrite `values.length` consecutive registers starting at `addr`. -/
def updateRange (r : Nat → Nat) (addr : Nat) (values : List Nat) : Nat → Nat :=
  fun a => if addr ≤ a ∧ a < addr + values.length then values.getD (a - addr) 0 else r a

/-- Model of `AB1805::readRegisters`: one bus transaction reading `num` consecutive
registers starting at `regAddr`; returns `none` when the transaction fails. -/
def readRegisters (f : Oracle) (regAddr num : Nat) (b : Bus) :
    Option (List Nat) × Bus :=
  let b' : Bus := { b with opIndex := b.opIndex + 1, trace := b.trace ++ [Op.read regAddr num] }
  if f b.opIndex then (some ((List.range num).map fun i => b.regs (regAddr + i)), b')
  else (none, b')

/-- Model of `AB1805::writeRegisters`: one bus transaction writing `array` to
consecutive registers starting at `regAddr`. -/
def writeRegisters (f : Oracle) (regAddr : Nat) (array : List Nat) (b : Bus) :
    Bool × Bus :=
  let b' : Bus := { b with opIndex := b.opIndex + 1, trace := b.trace ++ [Op.write regAddr array] }
  if f b.opIndex then (true, { b' with regs := updateRange b.regs regAddr array })
  else (false, b')

/-- A driver operation that reports success as a `bool` (the shape of every
fallible member function). -/
def Step := Oracle → Bus → Bool × Bus

/-- Model of `AB1805::writeRegister`: single-register write. -/
def writeRegister (regAddr value : Nat) : Step :=
  fun f b => writeRegisters f regAddr [value] b

/-- Model of `AB1805::readRegister` used purely for its success status (the value is
consumed by the caller-specific definitions below). -/
def readStep (regAddr num : Nat) : Step :=
  fun f b =>
    let r := readRegisters f regAddr num b
    (r.1.isSome, r.2)

/-- Model of `AB1805::maskRegister`: read the register; on success compute
`(value & andValue) | orValue` and write it back only if it differs from the
value read. -/
def maskRegister (regAddr andValue orValue : Nat) : Step :=
  fun f b =>
    match readRegisters f regAddr 1 b with
    | (none, b') => (false, b')
    | (some vs, b') =>
      let value := vs.getD 0 0
      let newValue := (value &&& andValue) ||| orValue
      if newValue ≠ value then writeRegister regAddr newValue f b' else (true, b')

/-- Model of `AB1805::clearRegisterBit`: `maskRegister(regAddr, ~bitMask, 0x00)`. -/
def clearRegisterBit (regAddr bitMask : Nat) : Step :=
  maskRegister regAddr (compl8 bitMask) 0x00

/-- Model of `AB1805::setRegisterBit`: `maskRegister(regAddr, 0xff, bitMask)`. -/
def setRegisterBit (regAddr bitMask : Nat) : Step :=
  maskRegister regAddr 0xff bitMask

/-- Model of `AB1805::isBitClear`: read the register and report
"read succeeded and `(value & bitMask) == 0`". -/
def isBitClear (regAddr bitMask : Nat) : Step :=
  fun f b =>
    match readRegisters f regAddr 1 b with
    | (none, b') => (false, b')
    | (some vs, b') => (decide (vs.getD 0 0 &&& bitMask = 0), b')

/-- Model of `AB1805::isBitSet`: read the register and report
"read succeeded and `(value & bitMask) != 0`". -/
def isBitSet (regAddr bitMask : Nat) : Step :=
  fun f b =>
    match readRegisters f regAddr 1 b with
    | (none, b') => (false, b')
    | (some vs, b') => (decide (vs.getD 0 0 &&& bitMask ≠ 0), b')

/-- Model of `AB1805::isRTCSet`: `isBitClear(REG_CTRL_1, REG_CTRL_1_WRTC)`. -/
def isRTCSet : Step := isBitClear REG_CTRL_1 REG_CTRL_1_WRTC

/-- Sequencing in the early-abort style of the driver: run `p`; if it fails
return `false` without running `q` (the `if (!bResult) return false;`
pattern). -/
def andThen (p q : Step) : Step :=
  fun f b =>
    let r := p f b
    if r.1 then q f r.2 else (false, r.2)

/-- Sequencing that discards the first step's result (the pattern in
`resetConfig`, where no return value is checked, and the diagnostic reads of
`repeatingInterrupt`). -/
def ignoring (p q : Step) : Step :=
  fun f b => q f (p f b).2

/-- A step that performs no bus traffic and returns `r` (`return true;`). -/
def pureStep (r : Bool) : Step := fun _ b => (r, b)

/-! ### Composite driver operations -/

/-- The quantized watchdog period count of `AB1805::setWDT` for
`seconds > 0`: `fourSecs = seconds / 4` clamped to 1..31 (1/4 Hz watchdog
clock, so each count is 4 seconds). -/
def setWDTFourSecs (seconds : Nat) : Nat :=
  let f1 := seconds / 4
  let f2 := if f1 < 1 then 1 else f1
  if f2 > 31 then 31 else f2

/-- The byte `AB1805::setWDT` writes to `REG_WDT` for `seconds > 0`:
`REG_WDT_RESET | (fourSecs << 2) | REG_WDT_WRB_1_4_HZ`. -/
def setWDTRegValue (seconds : Nat) : Nat :=
  REG_WDT_RESET ||| (setWDTFourSecs seconds <<< 2) ||| REG_WDT_WRB_1_4_HZ

/-- Model of `AB1805::setWDT(int seconds)` for `seconds ≥ 0`: disable the watchdog
(`seconds == 0`) or arm it with the clamped quantized period.  (The C
negative-argument branch re-arms with the stored `watchdogSecs` member and is
not needed by any claim.) -/
def setWDT (seconds : Nat) : Step :=
  if seconds = 0 then writeRegister REG_WDT 0x00
  else writeRegister REG_WDT (setWDTRegValue seconds)

/-- Model of `AB1805::resetConfig(uint32_t flags)`: writes the default value of every
configuration register, checking none of the individual results, and returns
`true`. -/
def resetConfig (flags : Nat) : Step :=
  ignoring (writeRegister REG_STATUS REG_STATUS_DEFAULT)
  (ignoring (writeRegister REG_CTRL_1 REG_CTRL_1_DEFAULT)
  (ignoring (writeRegister REG_CTRL_2 REG_CTRL_2_DEFAULT)
  (ignoring (writeRegister REG_INT_MASK REG_INT_MASK_DEFAULT)
  (ignoring (writeRegister REG_SQW REG_SQW_DEFAULT)
  (ignoring (writeRegister REG_SLEEP_CTRL REG_SLEEP_CTRL_DEFAULT)
  (ignoring (if flags &&& RESET_PRESERVE_REPEATING_TIMER ≠ 0 then
               maskRegister REG_TIMER_CTRL (compl8 REG_TIMER_CTRL_RPT_MASK)
                 (REG_TIMER_CTRL_DEFAULT &&& compl8 REG_TIMER_CTRL_RPT_MASK)
             else writeRegister REG_TIMER_CTRL REG_TIMER_CTRL_DEFAULT)
  (ignoring (writeRegister REG_TIMER REG_TIMER_DEFAULT)
  (ignoring (writeRegister REG_TIMER_INITIAL REG_TIMER_INITIAL_DEFAULT)
  (ignoring (writeRegister REG_WDT REG_WDT_DEFAULT)
  (ignoring (writeRegister REG_OSC_CTRL
               (if flags &&& RESET_DISABLE_XT ≠ 0 then
                  REG_OSC_CTRL_DEFAULT ||| REG_OSC_CTRL_OSEL ||| REG_OSC_CTRL_FOS
                else REG_OSC_CTRL_DEFAULT))
  (ignoring (writeRegister REG_TRICKLE REG_TRICKLE_DEFAULT)
  (ignoring (writeRegister REG_BREF_CTRL REG_BREF_CTRL_DEFAULT)
  (ignoring (writeRegister REG_AFCTRL REG_AFCTRL_DEFAULT)
  (ignoring (writeRegister REG_BATMODE_IO REG_BATMODE_IO_DEFAULT)
  (ignoring (writeRegister REG_OCTRL REG_OCTRL_DEFAULT)
  (pureStep true))))))))))))))))

/-- The countdown duration actually written by `AB1805::setCountdownTimer`:
`value` clamped to 1..255 (`if (value < 1) value = 1; if (value > 255) value
= 255;`).  The C argument is an `int`, so the domain is ℤ. -/
def clampTimerValue (value : Int) : Int :=
  let v1 := if value < 1 then 1 else value
  if v1 > 255 then 255 else v1

/-- Model of `AB1805::setCountdownTimer(int value, bool minutes)`: clear pending
interrupts, stop the timer, write the clamped duration, enable the timer
interrupt, and start the timer at 1 Hz (seconds) or 1/60 Hz (minutes),
aborting on the first failed step. -/
def setCountdownTimer (value : Int) (minutes : Bool) : Step :=
  andThen (writeRegister REG_STATUS REG_STATUS_DEFAULT)
  (andThen (writeRegister REG_TIMER_CTRL REG_TIMER_CTRL_DEFAULT)
  (andThen (writeRegister REG_TIMER (clampTimerValue value).toNat)
  (andThen (setRegisterBit REG_INT_MASK REG_INT_MASK_TIE)
  (writeRegister REG_TIMER_CTRL
    (REG_TIMER_CTRL_TE |||
      (if minutes then REG_TIMER_CTRL_TFS_1_60 else REG_TIMER_CTRL_TFS_1))))))

/-- Model of `AB1805::repeatingInterrupt(struct tm *timeptr, uint8_t rptValue)`:
disable the watchdog, clear a pending alarm, write the alarm registers, run
the two diagnostic reads (whose results are not checked), route FOUT/nIRQ,
enable the alarm interrupt, and set the repeat mode; every checked step
aborts on failure. -/
def repeatingInterrupt (timeptr : Tm) (rptValue : Nat) : Step :=
  andThen (setWDT 0)
  (andThen (clearRegisterBit REG_STATUS REG_STATUS_ALM)
  (andThen (fun f b => writeRegisters f REG_HUNDREDTH_ALARM
              (0x00 :: tmToRegisters timeptr false) b)
  (ignoring (readStep REG_HUNDREDTH_ALARM 7)
  (ignoring (readStep REG_HUNDREDTH 8)
  (andThen (maskRegister REG_CTRL_2 (compl8 REG_CTRL_2_OUT1S_MASK) REG_CTRL_2_OUT1S_nAIRQ)
  (andThen (setRegisterBit REG_INT_MASK REG_INT_MASK_AIE)
  (maskRegister REG_TIMER_CTRL (compl8 REG_TIMER_CTRL_RPT_MASK)
    (rptValue &&& REG_TIMER_CTRL_RPT_MASK))))))))

/-- Model of `AB1805::deepPowerDown(int seconds)` up to and including the sleep-entry
write to `REG_SLEEP_CTRL` (the subsequent busy-wait and `System.reset()`
fallback are outside the register model); the `SET_D8_LOW` block is compiled
in.  Every step aborts on failure. -/
def deepPowerDown (seconds : Int) : Step :=
  andThen (setWDT 0)
  (andThen (setRegisterBit REG_OCTRL REG_OCTRL_O1EN)
  (andThen (clearRegisterBit REG_CTRL_1 REG_CTRL_1_OUT)
  (andThen (writeRegister REG_SQW REG_SQW_DEFAULT)
  (andThen (maskRegister REG_CTRL_2 (compl8 REG_CTRL_2_OUT1S_MASK) REG_CTRL_2_OUT1S_SQW)
  (andThen (setCountdownTimer seconds false)
  (andThen (maskRegister REG_CTRL_1 (compl8 (REG_CTRL_1_STOP ||| REG_CTRL_1_RSP)) REG_CTRL_1_PWR2)
  (andThen (setRegisterBit REG_OSC_CTRL REG_OSC_CTRL_PWGT)
  (andThen (maskRegister REG_CTRL_2 (compl8 REG_CTRL_2_OUT2S_MASK) REG_CTRL_2_OUT2S_SLEEP)
  (writeRegister REG_SLEEP_CTRL (REG_SLEEP_CTRL_SLP ||| REG_SLEEP_CTRL_SLRES))))))))))

/-- Model of `AB1805::WakeReason`. -/
inductive WakeReason where
  | UNKNOWN
  | WATCHDOG
  | DEEP_POWER_DOWN
  | COUNTDOWN_TIMER
  | ALARM
deriving DecidableEq, Repr

/-- Model of `AB1805::updateWakeReason()`: read the status register; test, in order,
the watchdog bit, the sleep-occurred bit (`REG_SLEEP_CTRL`), the countdown
timer bit, and the alarm bit; the first match sets the wake reason and (for
the status-register bits) clears the matched bit.  `wakeReason` is the
member variable's prior value, returned unchanged when nothing matches. -/
def updateWakeReason (wakeReason : WakeReason) (f : Oracle) (b : Bus) :
    (Bool × WakeReason) × Bus :=
  match readRegisters f REG_STATUS 1 b with
  | (none, b') => ((false, wakeReason), b')
  | (some vs, b') =>
    let status := vs.getD 0 0
    if status &&& REG_STATUS_WDT ≠ 0 then
      let r := clearRegisterBit REG_STATUS REG_STATUS_WDT f b'
      ((true, WakeReason.WATCHDOG), r.2)
    else
      let rs := isBitSet REG_SLEEP_CTRL REG_SLEEP_CTRL_SLST f b'
      if rs.1 then ((true, WakeReason.DEEP_POWER_DOWN), rs.2)
      else if status &&& REG_STATUS_TIM ≠ 0 then
        let r := clearRegisterBit REG_STATUS REG_STATUS_TIM f rs.2
        ((true, WakeReason.COUNTDOWN_TIMER), r.2)
      else if status &&& REG_STATUS_ALM ≠ 0 then
        let r := clearRegisterBit REG_STATUS REG_STATUS_ALM f rs.2
        ((true, WakeReason.ALARM), r.2)
      else ((true, wakeReason), rs.2)

/-- Model of `AB1805::getRtcAsTm(struct tm *timeptr)`: when the WRTC bit says the RTC
has been set, read the 8 calendar registers and decode them; otherwise (or
when a read fails) fill the caller's struct with zero bytes and return
`false`. -/
def getRtcAsTm (timeptr : Tm) (f : Oracle) (b : Bus) : (Bool × Tm) × Bus :=
  let rc := isBitClear REG_CTRL_1 REG_CTRL_1_WRTC f b
  if rc.1 then
    match readRegisters f REG_HUNDREDTH 8 rc.2 with
    | (none, b') => ((false, zeroTm), b')
    | (some array, b') => ((true, registersToTm (array.drop 1) timeptr true), b')
  else ((false, zeroTm), rc.2)

/-- Model of `AB1805::setRtcFromTm(const struct tm *timeptr, bool lock)`: set WRTC,
write hundredths plus the 7 calendar bytes in one transaction, and on
success clear WRTC again — the result of the final clear is discarded; the
function returns the result of the calendar write (or `false` if setting
WRTC failed). -/
def setRtcFromTm (timeptr : Tm) : Step :=
  fun f b =>
    let array := 0x00 :: tmToRegisters timeptr true
    let r1 := setRegisterBit REG_CTRL_1 REG_CTRL_1_WRTC f b
    if r1.1 then
      let r2 := writeRegisters f REG_HUNDREDTH array r1.2
      if r2.1 then
        let r3 := clearRegisterBit REG_CTRL_1 REG_CTRL_1_WRTC f r2.2
        (true, r3.2)
      else (false, r2.2)
    else (false, r1.2)

/-! ### RAM access chunking (AB1805::readRam / AB1805::writeRam) -/

/-- One iteration of the `readRam`/`writeRam` loop: the bank-select bit
written to `REG_EXT_ADDR` (XADA set when `ramAddr ≥ 128`, cleared when
`< 128`), the RAM address of the chunk, the bus register address used for
the transfer (`REG_ALT_RAM + (ramAddr & 0x7f)`), and the chunk length. -/
structure RamChunk where
  bankSet : Bool
  ramAddr : Nat
  regAddr : Nat
  count : Nat
deriving DecidableEq, Repr

/-- One iteration's transfer length in `readRam`/`writeRam`:
`count = dataLen`, limited to the burst maximum, then limited so a chunk
starting below 128 does not cross the 128-byte page boundary. -/
def ramChunkCount (maxCount ramAddr dataLen : Nat) : Nat :=
  let c1 := if dataLen > maxCount then maxCount else dataLen
  if ramAddr < 128 ∧ ramAddr + c1 > 128 then 128 - ramAddr else c1

/-- The loop of `readRam`/`writeRam` as the list of chunks it transfers.
`maxCount` is the single-transaction burst limit (32 for reads, 31 for
writes).  The fuel argument is an upper bound on the number of iterations;
each iteration transfers at least one byte when `maxCount ≥ 1`, so
`fuel = dataLen` is exact (`ramChunksAux_count_sum` below). -/
def ramChunksAux (maxCount : Nat) : Nat → Nat → Nat → List RamChunk
  | 0, _, _ => []
  | fuel + 1, ramAddr, dataLen =>
    if dataLen = 0 then []
    else
      let count := ramChunkCount maxCount ramAddr dataLen
      { bankSet := !decide (ramAddr < 128), ramAddr := ramAddr,
        regAddr := REG_ALT_RAM + (ramAddr &&& 0x7f), count := count }
        :: ramChunksAux maxCount fuel (ramAddr + count) (dataLen - count)

/-- The chunks transferred by `AB1805::readRam(ramAddr, data, dataLen)`
(burst limit 32). -/
def readRamChunks (ramAddr dataLen : Nat) : List RamChunk :=
  ramChunksAux 32 dataLen ramAddr dataLen

/-- The chunks transferred by `AB1805::writeRam(ramAddr, data, dataLen)`
(burst limit 31). -/
def writeRamChunks (ramAddr dataLen : Nat) : List RamChunk :=
  ramChunksAux 31 dataLen ramAddr dataLen

/-! ### The early-abort discipline -/

/-- Running a step never decreases the transaction index. -/
def StepMono (p : Step) : Prop := ∀ f b, b.opIndex ≤ (p f b).2.opIndex

/-- The early-abort contract of a composite operation: when it reports
success every transaction it issued succeeded, and when it reports failure
the last transaction it issued is a failed one and every earlier one
succeeded — it stopped at the first failure. -/
def AbortEarly (p : Step) : Prop :=
  ∀ f b,
    ((p f b).1 = true → ∀ j, b.opIndex ≤ j → j < (p f b).2.opIndex → f j = true) ∧
    ((p f b).1 = false →
      b.opIndex < (p f b).2.opIndex ∧
      f ((p f b).2.opIndex - 1) = false ∧
      ∀ j, b.opIndex ≤ j → j < (p f b).2.opIndex - 1 → f j = true) ∧
    b.opIndex ≤ (p f b).2.opIndex

/-- The weaker contract of an operation containing unchecked diagnostic
transactions: when it reports failure, the last transaction it issued is a
failed one (nothing is issued after the failure that stops it). -/
def StopsAtFailure (p : Step) : Prop :=
  ∀ f b, (p f b).1 = false →
    b.opIndex < (p f b).2.opIndex ∧ f ((p f b).2.opIndex - 1) = false

/-! ### What a step may write -/

/-- Every write transaction a step adds to the trace satisfies `P`. -/
def WritesOnly (p : Step) (P : Nat → List Nat → Prop) : Prop :=
  ∀ f b a vs, Op.write a vs ∈ (p f b).2.trace → Op.write a vs ∈ b.trace ∨ P a vs

/-- The all-successful bus oracle (a healthy bus). -/
def allTrue : Oracle := fun _ => true

/-! ### Helper lemmas about BCD -/

/-- BCD round trip for two-digit values. -/
lemma bcd_roundTrip : ∀ v : Nat, v ≤ 99 → bcdToValue (valueToBcd v) = v := by
  decide

/-- C6: for every `v` in 0..99, `bcdToValue (valueToBcd v) = v`.
(The C argument is an `int`; the claim's range 0..99 is nonnegative, so the
ℕ model is exact.) -/
theorem bcdToValue_valueToBcd (v : Nat) (h : v ≤ 99) :
    bcdToValue (valueToBcd v) = v :=
  bcd_roundTrip v h

/-- Witness for C6 at `v = 42`. -/
theorem bcdToValue_valueToBcd_witness : bcdToValue (valueToBcd 42) = 42 :=
  bcdToValue_valueToBcd 42 (by decide)

/-- C1 counterexample: the calendar time 1900-01-01 00:00:00 (weekday 0) has
every field within the documented ranges (`tm_year = 0` years since 1900),
but the register round trip turns `tm_year = 0` into `tm_year = 100`,
because `tmToRegisters` stores `tm_year % 100` and `registersToTm` decodes
the year as `value + 100`. -/
theorem registersToTm_tmToRegisters_not_id :
    registersToTm (tmToRegisters ⟨0, 0, 0, 1, 0, 0, 0⟩ true) ⟨0, 0, 0, 1, 0, 0, 0⟩ true
      ≠ ⟨0, 0, 0, 1, 0, 0, 0⟩ := by
  decide

/-- C1 (amended): for every calendar time whose fields are in the documented
ranges and whose `tm_year` lies in 100..199 (calendar years 2000-2099 — the
century the driver assumes: the year is stored as two BCD digits and decoded
as `value + 100`), converting to register bytes with
`tmToRegisters` and back with
`registersToTm` (both with `includeYear` true) is the identity (the hundredths field
is not part of the structure). -/
theorem registersToTm_tmToRegisters_roundTrip (t t0 : Tm)
    (hsec : t.tm_sec ≤ 59) (hmin : t.tm_min ≤ 59) (hhour : t.tm_hour ≤ 23)
    (hmday1 : 1 ≤ t.tm_mday) (hmday : t.tm_mday ≤ 31) (hmon : t.tm_mon ≤ 11)
    (hwday : t.tm_wday ≤ 6) (hyearlo : 100 ≤ t.tm_year) (hyearhi : t.tm_year ≤ 199) :
    registersToTm (tmToRegisters t true) t0 true = t := by
  obtain ⟨s, m, h, d, mo, y, w⟩ := t
  simp only [Tm.mk.injEq] at *
  have hs := bcd_roundTrip s (by omega)
  have hm := bcd_roundTrip m (by omega)
  have hh := bcd_roundTrip h (by omega)
  have hd := bcd_roundTrip d (by omega)
  have hmo2 := bcd_roundTrip (mo + 1) (by omega)
  have hy := bcd_roundTrip (y % 100) (by omega)
  have hw := bcd_roundTrip w (by omega)
  simp only [registersToTm, tmToRegisters, if_pos rfl, List.cons_append, List.nil_append,
    List.getD_cons_zero, List.getD_cons_succ, if_true]
  simp only [Tm.mk.injEq]
  refine ⟨hs, hm, hh, hd, by omega, by omega, hw⟩

/-- Witness for C1 (amended) at 2020-12-28 12:45:30, weekday 6. -/
theorem registersToTm_tmToRegisters_roundTrip_witness :
    registersToTm (tmToRegisters ⟨30, 45, 12, 28, 11, 120, 6⟩ true) zeroTm true
      = ⟨30, 45, 12, 28, 11, 120, 6⟩ :=
  registersToTm_tmToRegisters_roundTrip ⟨30, 45, 12, 28, 11, 120, 6⟩ zeroTm
    (by decide) (by decide) (by decide) (by decide) (by decide) (by decide)
    (by decide) (by decide) (by decide)

/-! ### Basic lemmas about the bus primitives -/

@[simp] lemma writeRegisters_result (f : Oracle) (a : Nat) (vs : List Nat) (b : Bus) :
    (writeRegisters f a vs b).1 = f b.opIndex := by
  unfold writeRegisters; cases h : f b.opIndex <;> simp [h]

@[simp] lemma writeRegisters_trace (f : Oracle) (a : Nat) (vs : List Nat) (b : Bus) :
    (writeRegisters f a vs b).2.trace = b.trace ++ [Op.write a vs] := by
  unfold writeRegisters; cases h : f b.opIndex <;> simp [h]

@[simp] lemma writeRegisters_opIndex (f : Oracle) (a : Nat) (vs : List Nat) (b : Bus) :
    (writeRegisters f a vs b).2.opIndex = b.opIndex + 1 := by
  unfold writeRegisters; cases h : f b.opIndex <;> simp [h]

lemma writeRegisters_regs_true (f : Oracle) (a : Nat) (vs : List Nat) (b : Bus)
    (h : f b.opIndex = true) :
    (writeRegisters f a vs b).2.regs = updateRange b.regs a vs := by
  unfold writeRegisters; simp [h]

lemma writeRegisters_regs_false (f : Oracle) (a : Nat) (vs : List Nat) (b : Bus)
    (h : f b.opIndex = false) :
    (writeRegisters f a vs b).2.regs = b.regs := by
  unfold writeRegisters; simp [h]

@[simp] lemma readRegisters_trace (f : Oracle) (a n : Nat) (b : Bus) :
    (readRegisters f a n b).2.trace = b.trace ++ [Op.read a n] := by
  unfold readRegisters; cases h : f b.opIndex <;> simp [h]

@[simp] lemma readRegisters_opIndex (f : Oracle) (a n : Nat) (b : Bus) :
    (readRegisters f a n b).2.opIndex = b.opIndex + 1 := by
  unfold readRegisters; cases h : f b.opIndex <;> simp [h]

@[simp] lemma readRegisters_regs (f : Oracle) (a n : Nat) (b : Bus) :
    (readRegisters f a n b).2.regs = b.regs := by
  unfold readRegisters; cases h : f b.opIndex <;> simp [h]

lemma readRegisters_true (f : Oracle) (a n : Nat) (b : Bus) (h : f b.opIndex = true) :
    (readRegisters f a n b).1 = some ((List.range n).map fun i => b.regs (a + i)) := by
  unfold readRegisters; simp [h]

lemma readRegisters_false (f : Oracle) (a n : Nat) (b : Bus) (h : f b.opIndex = false) :
    (readRegisters f a n b).1 = none := by
  unfold readRegisters; simp [h]

lemma readRegisters_one_true (f : Oracle) (a : Nat) (b : Bus) (h : f b.opIndex = true) :
    readRegisters f a 1 b
      = (some [b.regs a],
         { b with opIndex := b.opIndex + 1, trace := b.trace ++ [Op.read a 1] }) := by
  unfold readRegisters
  simp [h, List.range_succ]

lemma readRegisters_one_false (f : Oracle) (a : Nat) (b : Bus) (h : f b.opIndex = false) :
    readRegisters f a 1 b
      = (none, { b with opIndex := b.opIndex + 1, trace := b.trace ++ [Op.read a 1] }) := by
  unfold readRegisters
  simp [h]

@[simp] lemma updateRange_single_same (r : Nat → Nat) (a v : Nat) :
    updateRange r a [v] a = v := by
  simp [updateRange]

lemma updateRange_out_low (r : Nat → Nat) (a : Nat) (vs : List Nat) (x : Nat)
    (h : x < a) : updateRange r a vs x = r x := by
  simp only [updateRange]
  rw [if_neg]
  omega

lemma updateRange_out_high (r : Nat → Nat) (a : Nat) (vs : List Nat) (x : Nat)
    (h : a + vs.length ≤ x) : updateRange r a vs x = r x := by
  simp only [updateRange]
  rw [if_neg]
  omega

lemma AbortEarly.stopsAtFailure {p : Step} (h : AbortEarly p) : StopsAtFailure p :=
  fun f b hf => ⟨((h f b).2.1 hf).1, ((h f b).2.1 hf).2.1⟩

lemma AbortEarly.mono {p : Step} (h : AbortEarly p) : StepMono p :=
  fun f b => (h f b).2.2

lemma abortEarly_writeRegisters (a : Nat) (vs : List Nat) :
    AbortEarly (fun f b => writeRegisters f a vs b) := by
  intro f b
  refine ⟨?_, ?_, by simp⟩
  · intro h j h1 h2
    simp only [writeRegisters_result] at h
    simp only [writeRegisters_opIndex] at h2
    have : j = b.opIndex := by omega
    rwa [this]
  · intro h
    simp only [writeRegisters_result] at h
    simp only [writeRegisters_opIndex]
    refine ⟨by omega, by simpa using h, ?_⟩
    intro j h1 h2
    omega

lemma abortEarly_writeRegister (a v : Nat) : AbortEarly (writeRegister a v) :=
  abortEarly_writeRegisters a [v]

lemma abortEarly_pureStep_true : AbortEarly (pureStep true) := by
  intro f b
  refine ⟨?_, ?_, le_refl _⟩
  · intro _ j h1 h2
    simp only [pureStep] at h2
    omega
  · intro h
    simp [pureStep] at h

lemma maskRegister_eq_true (f : Oracle) (a aV oV : Nat) (b : Bus) (h : f b.opIndex = true) :
    maskRegister a aV oV f b =
      if ((b.regs a &&& aV) ||| oV) ≠ b.regs a then
        writeRegister a ((b.regs a &&& aV) ||| oV) f
          { b with opIndex := b.opIndex + 1, trace := b.trace ++ [Op.read a 1] }
      else (true, { b with opIndex := b.opIndex + 1, trace := b.trace ++ [Op.read a 1] }) := by
  unfold maskRegister
  rw [readRegisters_one_true f a b h]
  rfl

lemma maskRegister_eq_false (f : Oracle) (a aV oV : Nat) (b : Bus) (h : f b.opIndex = false) :
    maskRegister a aV oV f b =
      (false, { b with opIndex := b.opIndex + 1, trace := b.trace ++ [Op.read a 1] }) := by
  unfold maskRegister
  rw [readRegisters_one_false f a b h]

lemma abortEarly_maskRegister (a aV oV : Nat) : AbortEarly (maskRegister a aV oV) := by
  intro f b
  by_cases h : f b.opIndex = true
  · rw [maskRegister_eq_true f a aV oV b h]
    by_cases hne : ((b.regs a &&& aV) ||| oV) = b.regs a
    · rw [if_neg (fun hc => hc hne)]
      refine ⟨?_, by intro hf; simp at hf, by simp⟩
      intro _ j h1 h2
      simp only at h2
      have : j = b.opIndex := by omega
      rwa [this]
    · rw [if_pos hne]
      constructor
      · intro ht j h1 h2
        simp only [writeRegister, writeRegisters_result] at ht
        simp only [writeRegister, writeRegisters_opIndex] at h2
        rcases (by omega : j = b.opIndex ∨ j = b.opIndex + 1) with hj | hj
        · rwa [hj]
        · rwa [hj]
      constructor
      · intro hf
        simp only [writeRegister, writeRegisters_result] at hf
        simp only [writeRegister, writeRegisters_opIndex]
        refine ⟨by omega, by simpa using hf, ?_⟩
        intro j h1 h2
        have : j = b.opIndex := by omega
        rwa [this]
      · simp only [writeRegister, writeRegisters_opIndex]
        omega
  · rw [maskRegister_eq_false f a aV oV b (by simpa using h)]
    refine ⟨by intro ht; simp at ht, ?_, by simp⟩
    intro _
    refine ⟨by simp, by simpa using h, ?_⟩
    intro j h1 h2
    simp only at h2
    omega

lemma abortEarly_setRegisterBit (a m : Nat) : AbortEarly (setRegisterBit a m) :=
  abortEarly_maskRegister a 0xff m

lemma abortEarly_clearRegisterBit (a m : Nat) : AbortEarly (clearRegisterBit a m) :=
  abortEarly_maskRegister a (compl8 m) 0x00

lemma abortEarly_setWDT (s : Nat) : AbortEarly (setWDT s) := by
  unfold setWDT
  split <;> exact abortEarly_writeRegister _ _

lemma andThen_eq_false {p q : Step} {f : Oracle} {b : Bus} (h : (p f b).1 = false) :
    andThen p q f b = (false, (p f b).2) := by
  unfold andThen
  simp [h]

lemma andThen_eq_true {p q : Step} {f : Oracle} {b : Bus} (h : (p f b).1 = true) :
    andThen p q f b = q f (p f b).2 := by
  unfold andThen
  simp [h]

lemma abortEarly_andThen {p q : Step} (hp : AbortEarly p) (hq : AbortEarly q) :
    AbortEarly (andThen p q) := by
  intro f b
  obtain ⟨hp1, hp2, hp3⟩ := hp f b
  cases h : (p f b).1
  · rw [andThen_eq_false h]
    obtain ⟨g1, g2, g3⟩ := hp2 h
    exact ⟨by intro ht; simp at ht, fun _ => ⟨g1, g2, g3⟩, le_of_lt g1⟩
  · rw [andThen_eq_true h]
    obtain ⟨hq1, hq2, hq3⟩ := hq f (p f b).2
    have hall := hp1 h
    refine ⟨?_, ?_, le_trans hp3 hq3⟩
    · intro ht j h1 h2
      by_cases hj : j < (p f b).2.opIndex
      · exact hall _ h1 hj
      · exact hq1 ht j (by omega) h2
    · intro hf
      obtain ⟨g1, g2, g3⟩ := hq2 hf
      refine ⟨lt_of_le_of_lt hp3 g1, g2, ?_⟩
      intro j h1 h2
      by_cases hj : j < (p f b).2.opIndex
      · exact hall _ h1 hj
      · exact g3 j (by omega) h2

lemma abortEarly_setCountdownTimer (v : Int) (m : Bool) :
    AbortEarly (setCountdownTimer v m) := by
  unfold setCountdownTimer
  exact abortEarly_andThen (abortEarly_writeRegister _ _)
    (abortEarly_andThen (abortEarly_writeRegister _ _)
      (abortEarly_andThen (abortEarly_writeRegister _ _)
        (abortEarly_andThen (abortEarly_setRegisterBit _ _)
          (abortEarly_writeRegister _ _))))

lemma abortEarly_deepPowerDown (s : Int) : AbortEarly (deepPowerDown s) := by
  unfold deepPowerDown
  exact abortEarly_andThen (abortEarly_setWDT 0)
    (abortEarly_andThen (abortEarly_setRegisterBit _ _)
      (abortEarly_andThen (abortEarly_clearRegisterBit _ _)
        (abortEarly_andThen (abortEarly_writeRegister _ _)
          (abortEarly_andThen (abortEarly_maskRegister _ _ _)
            (abortEarly_andThen (abortEarly_setCountdownTimer s false)
              (abortEarly_andThen (abortEarly_maskRegister _ _ _)
                (abortEarly_andThen (abortEarly_setRegisterBit _ _)
                  (abortEarly_andThen (abortEarly_maskRegister _ _ _)
                    (abortEarly_writeRegister _ _)))))))))

lemma stepMono_readStep (a n : Nat) : StepMono (readStep a n) := by
  intro f b
  simp only [readStep, readRegisters_opIndex]
  omega

lemma stepMono_ignoring {p q : Step} (hp : StepMono p) (hq : StepMono q) :
    StepMono (ignoring p q) := by
  intro f b
  exact le_trans (hp f b) (hq f (p f b).2)

lemma stopsAtFailure_ignoring {p q : Step} (hp : StepMono p) (hq : StopsAtFailure q) :
    StopsAtFailure (ignoring p q) := by
  intro f b h
  obtain ⟨g1, g2⟩ := hq f (p f b).2 h
  exact ⟨lt_of_le_of_lt (hp f b) g1, g2⟩

lemma stopsAtFailure_andThen {p q : Step} (hp : StopsAtFailure p) (hpm : StepMono p)
    (hq : StopsAtFailure q) : StopsAtFailure (andThen p q) := by
  intro f b h
  cases hc : (p f b).1
  · rw [andThen_eq_false hc] at h ⊢
    exact hp f b hc
  · rw [andThen_eq_true hc] at h ⊢
    obtain ⟨g1, g2⟩ := hq f (p f b).2 h
    exact ⟨lt_of_le_of_lt (hpm f b) g1, g2⟩

lemma stopsAtFailure_repeatingInterrupt (t : Tm) (rpt : Nat) :
    StopsAtFailure (repeatingInterrupt t rpt) := by
  unfold repeatingInterrupt
  refine stopsAtFailure_andThen (abortEarly_setWDT 0).stopsAtFailure (abortEarly_setWDT 0).mono ?_
  refine stopsAtFailure_andThen (abortEarly_clearRegisterBit _ _).stopsAtFailure
    (abortEarly_clearRegisterBit _ _).mono ?_
  refine stopsAtFailure_andThen (abortEarly_writeRegisters _ _).stopsAtFailure
    (abortEarly_writeRegisters _ _).mono ?_
  refine stopsAtFailure_ignoring (stepMono_readStep _ _) ?_
  refine stopsAtFailure_ignoring (stepMono_readStep _ _) ?_
  refine stopsAtFailure_andThen (abortEarly_maskRegister _ _ _).stopsAtFailure
    (abortEarly_maskRegister _ _ _).mono ?_
  exact stopsAtFailure_andThen (abortEarly_setRegisterBit _ _).stopsAtFailure
    (abortEarly_setRegisterBit _ _).mono (abortEarly_maskRegister _ _ _).stopsAtFailure

lemma resetConfig_result (flags : Nat) (f : Oracle) (b : Bus) :
    (resetConfig flags f b).1 = true := rfl

lemma writesOnly_writeRegisters (a0 : Nat) (vs0 : List Nat) (P : Nat → List Nat → Prop)
    (h : P a0 vs0) : WritesOnly (fun f b => writeRegisters f a0 vs0 b) P := by
  intro f b a vs hm
  simp only [writeRegisters_trace, List.mem_append, List.mem_singleton] at hm
  rcases hm with hm | hm
  · exact Or.inl hm
  · simp only [Op.write.injEq] at hm
    obtain ⟨rfl, rfl⟩ := hm
    exact Or.inr h

lemma writesOnly_writeRegister (a0 v0 : Nat) (P : Nat → List Nat → Prop)
    (h : P a0 [v0]) : WritesOnly (writeRegister a0 v0) P :=
  writesOnly_writeRegisters a0 [v0] P h

lemma writesOnly_maskRegister (a0 aV oV : Nat) (P : Nat → List Nat → Prop)
    (h : ∀ x, P a0 [(x &&& aV) ||| oV]) : WritesOnly (maskRegister a0 aV oV) P := by
  intro f b a vs hm
  by_cases hf : f b.opIndex = true
  · rw [maskRegister_eq_true f a0 aV oV b hf] at hm
    by_cases hne : ((b.regs a0 &&& aV) ||| oV) = b.regs a0
    · rw [if_neg (fun hc => hc hne)] at hm
      simp only [List.mem_append, List.mem_singleton] at hm
      rcases hm with hm | hm
      · exact Or.inl hm
      · exact absurd hm (by simp)
    · rw [if_pos hne] at hm
      simp only [writeRegister, writeRegisters_trace, List.append_assoc, List.mem_append,
        List.mem_singleton, List.mem_cons, List.not_mem_nil, or_false] at hm
      rcases hm with hm | hm | hm
      · exact Or.inl hm
      · exact absurd hm (by simp)
      · simp only [Op.write.injEq] at hm
        obtain ⟨rfl, rfl⟩ := hm
        exact Or.inr (h _)
  · rw [maskRegister_eq_false f a0 aV oV b (by simpa using hf)] at hm
    simp only [List.mem_append, List.mem_singleton] at hm
    rcases hm with hm | hm
    · exact Or.inl hm
    · exact absurd hm (by simp)

lemma writesOnly_readStep (a0 n : Nat) (P : Nat → List Nat → Prop) :
    WritesOnly (readStep a0 n) P := by
  intro f b a vs hm
  simp only [readStep, readRegisters_trace, List.mem_append, List.mem_singleton] at hm
  rcases hm with hm | hm
  · exact Or.inl hm
  · exact absurd hm (by simp)

lemma writesOnly_pureStep (r : Bool) (P : Nat → List Nat → Prop) :
    WritesOnly (pureStep r) P :=
  fun _ _ _ _ hm => Or.inl hm

lemma writesOnly_andThen {p q : Step} {P : Nat → List Nat → Prop}
    (hp : WritesOnly p P) (hq : WritesOnly q P) : WritesOnly (andThen p q) P := by
  intro f b a vs hm
  cases hc : (p f b).1
  · rw [andThen_eq_false hc] at hm
    exact hp f b a vs hm
  · rw [andThen_eq_true hc] at hm
    rcases hq f (p f b).2 a vs hm with h | h
    · exact hp f b a vs h
    · exact Or.inr h

lemma writesOnly_ignoring {p q : Step} {P : Nat → List Nat → Prop}
    (hp : WritesOnly p P) (hq : WritesOnly q P) : WritesOnly (ignoring p q) P := by
  intro f b a vs hm
  rcases hq f (p f b).2 a vs hm with h | h
  · exact hp f b a vs h
  · exact Or.inr h

/-! ### C4: error handling of composite operations -/

/-- C4 counterexample: on a bus where every transaction fails,
`resetConfig` issues its 16 register writes (all of which fail) and still
returns `true`, so it is false that every composite operation returns
`false` and stops as soon as a constituent register operation fails. -/
theorem resetConfig_ignores_failures :
    (resetConfig 0 (fun _ => false) (mkBus fun _ => 0)).1 = true ∧
    (fun _ => false : Oracle) 0 = false ∧
    (resetConfig 0 (fun _ => false) (mkBus fun _ => 0)).2.opIndex = 16 ∧
    (resetConfig 0 (fun _ => false) (mkBus fun _ => 0)).2.trace.length = 16 := by
  refine ⟨rfl, rfl, by decide, by decide⟩

/-- C4 (amended): every fallible operation returns a boolean success
indicator.  `setCountdownTimer` and `deepPowerDown` (up to its sleep-entry
write) obey the early-abort contract: on success every issued transaction
succeeded, and on failure they return `false` having stopped at the first
failed transaction.  `repeatingInterrupt` checks every step except its two
diagnostic reads, and when it returns `false` the transaction that failed is
the last one issued.  `resetConfig`, by contrast, issues its whole fixed
write sequence without checking any individual result and always returns
`true`. -/
theorem compositeOps_error_handling :
    (∀ v m, AbortEarly (setCountdownTimer v m)) ∧
    (∀ s, AbortEarly (deepPowerDown s)) ∧
    (∀ t rpt, StopsAtFailure (repeatingInterrupt t rpt)) ∧
    (∀ flags f b, (resetConfig flags f b).1 = true) :=
  ⟨abortEarly_setCountdownTimer, abortEarly_deepPowerDown,
   stopsAtFailure_repeatingInterrupt, resetConfig_result⟩

/-- Witness for C4 (amended): `setCountdownTimer` on an all-failing bus
returns `false` with a failed final transaction, and `resetConfig` returns
`true`. -/
theorem compositeOps_error_handling_witness :
    (setCountdownTimer 1 false (fun _ => false) (mkBus fun _ => 0)).1 = false ∧
    (fun _ => false : Oracle)
      ((setCountdownTimer 1 false (fun _ => false) (mkBus fun _ => 0)).2.opIndex - 1) = false ∧
    (resetConfig 0 (fun _ => true) (mkBus fun _ => 0)).1 = true := by
  refine ⟨rfl, ?_, compositeOps_error_handling.2.2.2 0 (fun _ => true) (mkBus fun _ => 0)⟩
  exact ((compositeOps_error_handling.1 1 false
    (fun _ => false) (mkBus fun _ => 0)).2.1 rfl).2.1

/-! ### C5: watchdog period quantization and clamping -/

/-- C5: for `seconds > 0`, `setWDT` performs exactly the single write of
`REG_WDT_RESET | (fourSecs << 2) | REG_WDT_WRB_1_4_HZ` to the watchdog
register, where the effective period `4 * fourSecs` is the requested period
quantized to 4-second steps and clamped to 4..124 seconds; in particular 3
seconds yields the 4-second minimum and 200 seconds the 124-second
maximum. -/
theorem setWDT_quantize_clamp (s : Nat) (hs : 0 < s) (f : Oracle) (b : Bus) :
    setWDT s f b = writeRegister REG_WDT (setWDTRegValue s) f b ∧
    (setWDT s f b).2.trace = b.trace ++ [Op.write REG_WDT [setWDTRegValue s]] ∧
    setWDTRegValue s = REG_WDT_RESET + setWDTFourSecs s * 4 + REG_WDT_WRB_1_4_HZ ∧
    4 * setWDTFourSecs s = min 124 (max 4 (4 * (s / 4))) ∧
    4 * setWDTFourSecs 3 = 4 ∧ 4 * setWDTFourSecs 200 = 124 := by
  have he : setWDT s f b = writeRegister REG_WDT (setWDTRegValue s) f b := by
    unfold setWDT
    rw [if_neg (by omega : ¬ s = 0)]
  have hlt : setWDTFourSecs s < 32 := by
    simp only [setWDTFourSecs]
    repeat' split
    all_goals omega
  have hbits : ∀ c < 32, 128 ||| (c <<< 2) ||| 3 = 128 + c * 4 + 3 := by decide
  refine ⟨he, ?_, ?_, ?_, by decide, by decide⟩
  · rw [he]
    simp [writeRegister]
  · have := hbits _ hlt
    simpa [setWDTRegValue, REG_WDT_RESET, REG_WDT_WRB_1_4_HZ] using this
  · simp only [setWDTFourSecs, Nat.min_def, Nat.max_def]
    repeat' split
    all_goals omega

/-- Witness for C5 at `seconds = 3` and `seconds = 200`. -/
theorem setWDT_quantize_clamp_witness :
    4 * setWDTFourSecs 3 = 4 ∧ 4 * setWDTFourSecs 200 = 124 ∧
    setWDT 3 (fun _ => true) (mkBus fun _ => 0)
      = writeRegister REG_WDT (setWDTRegValue 3) (fun _ => true) (mkBus fun _ => 0) :=
  ⟨(setWDT_quantize_clamp 3 (by decide) (fun _ => true) (mkBus fun _ => 0)).2.2.2.2.1,
   (setWDT_quantize_clamp 200 (by decide) (fun _ => true) (mkBus fun _ => 0)).2.2.2.2.2,
   (setWDT_quantize_clamp 3 (by decide) (fun _ => true) (mkBus fun _ => 0)).1⟩

/-! ### C8: countdown timer duration clamping -/

/-- C8: the countdown-timer arming path clamps the duration to 1..255 — a
value below 1 becomes 1 and a value above 255 becomes 255 (0 yields 1, 9000
yields 255) — and, for either clock-unit flag, any write `setCountdownTimer`
issues to the timer register carries exactly the clamped value. -/
theorem setCountdownTimer_clamps (v : Int) (m : Bool) (f : Oracle) (regs : Nat → Nat) :
    (1 ≤ clampTimerValue v ∧ clampTimerValue v ≤ 255) ∧
    (v < 1 → clampTimerValue v = 1) ∧
    (255 < v → clampTimerValue v = 255) ∧
    (1 ≤ v → v ≤ 255 → clampTimerValue v = v) ∧
    clampTimerValue 0 = 1 ∧ clampTimerValue 9000 = 255 ∧
    (∀ x, Op.write REG_TIMER [x] ∈ (setCountdownTimer v m f (mkBus regs)).2.trace →
      x = (clampTimerValue v).toNat) := by
  have hW : WritesOnly (setCountdownTimer v m)
      (fun a vs => a = REG_TIMER → vs = [(clampTimerValue v).toNat]) := by
    unfold setCountdownTimer setRegisterBit
    refine writesOnly_andThen (writesOnly_writeRegister _ _ _ (fun h => absurd h (by decide))) ?_
    refine writesOnly_andThen (writesOnly_writeRegister _ _ _ (fun h => absurd h (by decide))) ?_
    refine writesOnly_andThen (writesOnly_writeRegister _ _ _ (fun _ => rfl)) ?_
    refine writesOnly_andThen (writesOnly_maskRegister _ _ _ _ (fun _ h => absurd h (by decide))) ?_
    exact writesOnly_writeRegister _ _ _ (fun h => absurd h (by decide))
  refine ⟨?_, ?_, ?_, ?_, by decide, by decide, ?_⟩
  · simp only [clampTimerValue]
    repeat' split
    all_goals omega
  · intro h
    simp only [clampTimerValue]
    repeat' split
    all_goals omega
  · intro h
    simp only [clampTimerValue]
    repeat' split
    all_goals omega
  · intro h1 h2
    simp only [clampTimerValue]
    repeat' split
    all_goals omega
  · intro x hm
    rcases hW f (mkBus regs) REG_TIMER [x] hm with h | h
    · exact absurd h (by simp [mkBus])
    · simpa using h rfl

/-- Witness for C8 at the claim's two instances. -/
theorem setCountdownTimer_clamps_witness :
    clampTimerValue 0 = 1 ∧ clampTimerValue 9000 = 255 :=
  ⟨(setCountdownTimer_clamps 0 false (fun _ => true) (fun _ => 0)).2.1 (by decide),
   (setCountdownTimer_clamps 9000 false (fun _ => true) (fun _ => 0)).2.2.1 (by decide)⟩

/-! ### C3: RAM chunking invariants -/

lemma and127_eq_mod (a : Nat) : a &&& 127 = a % 128 := by
  have h : (127 : Nat) = 2 ^ 7 - 1 := by norm_num
  rw [h, Nat.and_pow_two_sub_one_eq_mod]

lemma ramChunkCount_pos {maxCount ramAddr dataLen : Nat} (h1 : 1 ≤ maxCount)
    (hd : dataLen ≠ 0) : 1 ≤ ramChunkCount maxCount ramAddr dataLen := by
  simp only [ramChunkCount]
  repeat' split
  all_goals omega

lemma ramChunkCount_le_dataLen {maxCount ramAddr dataLen : Nat} :
    ramChunkCount maxCount ramAddr dataLen ≤ dataLen := by
  simp only [ramChunkCount]
  repeat' split
  all_goals omega

lemma ramChunkCount_le_maxCount {maxCount ramAddr dataLen : Nat} :
    ramChunkCount maxCount ramAddr dataLen ≤ max maxCount dataLen := by
  simp only [ramChunkCount]
  repeat' split
  all_goals omega

lemma ramChunksAux_mem_spec (maxCount : Nat) (h1 : 1 ≤ maxCount) :
    ∀ fuel ramAddr dataLen, ramAddr + dataLen ≤ 256 →
      ∀ ch ∈ ramChunksAux maxCount fuel ramAddr dataLen,
        1 ≤ ch.count ∧ ch.count ≤ maxCount ∧
        (ch.bankSet = true ↔ 128 ≤ ch.ramAddr) ∧
        (ch.ramAddr + ch.count ≤ 128 ∨ 128 ≤ ch.ramAddr) ∧
        ch.ramAddr + ch.count ≤ 256 ∧
        ch.regAddr = REG_ALT_RAM + ch.ramAddr % 128 := by
  intro fuel
  induction fuel with
  | zero =>
    intro ramAddr dataLen _ ch hch
    simp [ramChunksAux] at hch
  | succ n ih =>
    intro ramAddr dataLen hle ch hch
    by_cases hd : dataLen = 0
    · simp [ramChunksAux, hd] at hch
    · rw [ramChunksAux, if_neg hd] at hch
      have hpos := @ramChunkCount_pos maxCount ramAddr dataLen h1 hd
      have hlen := @ramChunkCount_le_dataLen maxCount ramAddr dataLen
      rcases List.mem_cons.mp hch with hc | hc
      · subst hc
        dsimp only
        have hmax : ramChunkCount maxCount ramAddr dataLen ≤ maxCount ∨
            ramChunkCount maxCount ramAddr dataLen ≤ dataLen ∧ dataLen ≤ maxCount := by
          simp only [ramChunkCount]
          repeat' split
          all_goals omega
        refine ⟨hpos, by omega, ?_, ?_, by omega, ?_⟩
        · simp only [Bool.not_eq_true', decide_eq_false_iff_not]
          omega
        · by_cases hr : ramAddr < 128
          · left
            simp only [ramChunkCount]
            repeat' split
            all_goals omega
          · right
            omega
        · rw [and127_eq_mod]
      · exact ih (ramAddr + ramChunkCount maxCount ramAddr dataLen)
          (dataLen - ramChunkCount maxCount ramAddr dataLen) (by omega) ch hc

lemma ramChunksAux_count_sum (maxCount : Nat) (h1 : 1 ≤ maxCount) :
    ∀ fuel ramAddr dataLen, dataLen ≤ fuel →
      ((ramChunksAux maxCount fuel ramAddr dataLen).map RamChunk.count).sum = dataLen := by
  intro fuel
  induction fuel with
  | zero =>
    intro ramAddr dataLen hle
    have : dataLen = 0 := by omega
    simp [ramChunksAux, this]
  | succ n ih =>
    intro ramAddr dataLen hle
    by_cases hd : dataLen = 0
    · simp [ramChunksAux, hd]
    · rw [ramChunksAux, if_neg hd]
      have hpos := @ramChunkCount_pos maxCount ramAddr dataLen h1 hd
      have hlen := @ramChunkCount_le_dataLen maxCount ramAddr dataLen
      simp only [List.map_cons, List.sum_cons]
      rw [ih (ramAddr + ramChunkCount maxCount ramAddr dataLen)
        (dataLen - ramChunkCount maxCount ramAddr dataLen) (by omega)]
      omega

/-- C3: for every `readRam`/`writeRam` call with `ramAddr + dataLen ≤ 256`,
each transferred chunk is 1..32 bytes (reads) or 1..31 bytes (writes), no
chunk crosses the 128-byte bank boundary, the XADA bank-select bit written
before a chunk is set exactly when the chunk's start address is ≥ 128, the
chunk is transferred at register `REG_ALT_RAM + (address mod 128)`, and the
chunks together cover exactly `dataLen` bytes. -/
theorem ram_chunking_invariants (ramAddr dataLen : Nat) (h : ramAddr + dataLen ≤ 256) :
    (∀ ch ∈ readRamChunks ramAddr dataLen,
        1 ≤ ch.count ∧ ch.count ≤ 32 ∧
        (ch.bankSet = true ↔ 128 ≤ ch.ramAddr) ∧
        (ch.ramAddr + ch.count ≤ 128 ∨ 128 ≤ ch.ramAddr) ∧
        ch.ramAddr + ch.count ≤ 256 ∧
        ch.regAddr = REG_ALT_RAM + ch.ramAddr % 128) ∧
    (∀ ch ∈ writeRamChunks ramAddr dataLen,
        1 ≤ ch.count ∧ ch.count ≤ 31 ∧
        (ch.bankSet = true ↔ 128 ≤ ch.ramAddr) ∧
        (ch.ramAddr + ch.count ≤ 128 ∨ 128 ≤ ch.ramAddr) ∧
        ch.ramAddr + ch.count ≤ 256 ∧
        ch.regAddr = REG_ALT_RAM + ch.ramAddr % 128) ∧
    ((readRamChunks ramAddr dataLen).map RamChunk.count).sum = dataLen ∧
    ((writeRamChunks ramAddr dataLen).map RamChunk.count).sum = dataLen :=
  ⟨ramChunksAux_mem_spec 32 (by omega) dataLen ramAddr dataLen h,
   ramChunksAux_mem_spec 31 (by omega) dataLen ramAddr dataLen h,
   ramChunksAux_count_sum 32 (by omega) dataLen ramAddr dataLen (le_refl _),
   ramChunksAux_count_sum 31 (by omega) dataLen ramAddr dataLen (le_refl _)⟩

/-- Witness for C3: a 60-byte transfer starting at address 100 (which crosses
the bank boundary) is fully covered for both burst limits. -/
theorem ram_chunking_invariants_witness :
    ((readRamChunks 100 60).map RamChunk.count).sum = 60 ∧
    ((writeRamChunks 100 60).map RamChunk.count).sum = 60 :=
  ⟨(ram_chunking_invariants 100 60 (by decide)).2.2.1,
   (ram_chunking_invariants 100 60 (by decide)).2.2.2⟩

/-! ### C7: maskRegister read-modify-write discipline -/

/-- C7: `maskRegister` always performs the read; on a successful read it
computes `(old & andMask) | orMask` and writes back exactly when the result
differs from `old`; when the value is unchanged no write transaction is
issued, the registers are untouched, and the call reports success. -/
theorem maskRegister_read_modify_write (f : Oracle) (regAddr andValue orValue : Nat)
    (b : Bus) (hread : f b.opIndex = true) :
    (∃ rest, (maskRegister regAddr andValue orValue f b).2.trace
        = b.trace ++ Op.read regAddr 1 :: rest) ∧
    ((b.regs regAddr &&& andValue) ||| orValue = b.regs regAddr →
      (maskRegister regAddr andValue orValue f b).1 = true ∧
      (maskRegister regAddr andValue orValue f b).2.trace = b.trace ++ [Op.read regAddr 1] ∧
      (maskRegister regAddr andValue orValue f b).2.regs = b.regs) ∧
    ((b.regs regAddr &&& andValue) ||| orValue ≠ b.regs regAddr →
      (maskRegister regAddr andValue orValue f b).2.trace
        = b.trace ++ [Op.read regAddr 1,
                      Op.write regAddr [(b.regs regAddr &&& andValue) ||| orValue]] ∧
      (maskRegister regAddr andValue orValue f b).1 = f (b.opIndex + 1) ∧
      ((maskRegister regAddr andValue orValue f b).1 = true →
        (maskRegister regAddr andValue orValue f b).2.regs regAddr
          = (b.regs regAddr &&& andValue) ||| orValue)) := by
  have hm := maskRegister_eq_true f regAddr andValue orValue b hread
  by_cases hne : (b.regs regAddr &&& andValue) ||| orValue = b.regs regAddr
  · rw [hm, if_neg (fun hc => hc hne)]
    exact ⟨⟨[], rfl⟩, fun _ => ⟨rfl, rfl, rfl⟩, fun hc => absurd hne hc⟩
  · rw [hm, if_pos hne]
    refine ⟨⟨[Op.write regAddr [(b.regs regAddr &&& andValue) ||| orValue]], ?_⟩,
      fun hc => absurd hc hne, fun _ => ⟨?_, ?_, ?_⟩⟩
    · simp [writeRegister]
    · simp [writeRegister]
    · simp [writeRegister]
    · intro ht
      have hsucc : f (b.opIndex + 1) = true := by
        simpa [writeRegister] using ht
      simp only [writeRegister]
      rw [writeRegisters_regs_true _ _ _ _ (by simpa using hsucc)]
      simp

/-- Witness for C7: with all-successful transactions, masking register 5
(all-zero register file) with `andMask = 0`, `orMask = 7` writes back and
leaves 7 in the register. -/
theorem maskRegister_read_modify_write_witness :
    (maskRegister 5 0 7 (fun _ => true) (mkBus fun _ => 0)).1 = true ∧
    (maskRegister 5 0 7 (fun _ => true) (mkBus fun _ => 0)).2.regs 5 = 7 := by
  have h := maskRegister_read_modify_write (fun _ => true) 5 0 7 (mkBus fun _ => 0) rfl
  have h3 := h.2.2 (by decide)
  have hres : (maskRegister 5 0 7 (fun _ => true) (mkBus fun _ => 0)).1 = true := by
    rw [h3.2.1]
  exact ⟨hres, by rw [h3.2.2 hres]; decide⟩

/-! ### C9: reading the RTC before it has been set -/

/-- C9: when the WRTC bit in control register 1 is set (the RTC has never
been programmed), `getRtcAsTm` returns `false` with the caller's struct
zero-filled, performs no read of the calendar registers (its only
transaction is the control-register read), and the "RTC set" condition is
the separate control bit that `isRTCSet` reports as false in the same
state. -/
theorem getRtcAsTm_zero_when_unset (f : Oracle) (t0 : Tm) (b : Bus)
    (hf : f b.opIndex = true) (hbit : b.regs REG_CTRL_1 &&& REG_CTRL_1_WRTC ≠ 0) :
    (getRtcAsTm t0 f b).1 = (false, zeroTm) ∧
    (getRtcAsTm t0 f b).2.trace = b.trace ++ [Op.read REG_CTRL_1 1] ∧
    (getRtcAsTm t0 f b).2.regs = b.regs ∧
    (isRTCSet f b).1 = false := by
  have hbc : isBitClear REG_CTRL_1 REG_CTRL_1_WRTC f b
      = (false, { b with opIndex := b.opIndex + 1,
                         trace := b.trace ++ [Op.read REG_CTRL_1 1] }) := by
    unfold isBitClear
    rw [readRegisters_one_true f REG_CTRL_1 b hf]
    simp [decide_eq_false hbit]
  unfold getRtcAsTm
  rw [hbc]
  refine ⟨rfl, rfl, rfl, ?_⟩
  unfold isRTCSet
  rw [hbc]

/-- Witness for C9: control register 1 holding its power-up default 0x13
(WRTC set). -/
theorem getRtcAsTm_zero_when_unset_witness :
    (getRtcAsTm zeroTm (fun _ => true) (mkBus fun a => if a = 16 then 19 else 0)).1
      = (false, zeroTm) ∧
    (isRTCSet (fun _ => true) (mkBus fun a => if a = 16 then 19 else 0)).1 = false :=
  ⟨(getRtcAsTm_zero_when_unset (fun _ => true) zeroTm
      (mkBus fun a => if a = 16 then 19 else 0) rfl (by decide)).1,
   (getRtcAsTm_zero_when_unset (fun _ => true) zeroTm
      (mkBus fun a => if a = 16 then 19 else 0) rfl (by decide)).2.2.2⟩

/-! ### C2: wake-reason priority and status-bit clearing -/

lemma and_mask_ne_self {x m c : Nat} (hcm : c &&& m = 0) (hx : x &&& m ≠ 0) :
    x &&& c ≠ x := by
  intro he
  apply hx
  have h2 : x &&& m = (x &&& c) &&& m := by rw [he]
  rw [h2, Nat.land_assoc, hcm, Nat.and_zero]

lemma isBitSet_eq (f : Oracle) (a m : Nat) (b : Bus) (hf : f b.opIndex = true) :
    isBitSet a m f b
      = (decide (b.regs a &&& m ≠ 0),
         { b with opIndex := b.opIndex + 1, trace := b.trace ++ [Op.read a 1] }) := by
  unfold isBitSet
  rw [readRegisters_one_true f a b hf]
  rfl

lemma clearRegisterBit_changes (f : Oracle) (a m : Nat) (b : Bus)
    (hf1 : f b.opIndex = true) (hf2 : f (b.opIndex + 1) = true)
    (hne : b.regs a &&& compl8 m ≠ b.regs a) :
    (clearRegisterBit a m f b).1 = true ∧
    (clearRegisterBit a m f b).2.regs = updateRange b.regs a [b.regs a &&& compl8 m] := by
  unfold clearRegisterBit
  rw [maskRegister_eq_true f a (compl8 m) 0 b hf1]
  rw [if_pos (show (b.regs a &&& compl8 m) ||| 0 ≠ b.regs a by rw [Nat.or_zero]; exact hne)]
  constructor
  · simp [writeRegister, hf2]
  · simp only [writeRegister]
    rw [writeRegisters_regs_true _ _ _ _ (by simpa using hf2)]
    rw [Nat.or_zero]

lemma updateWakeReason_eq (w0 : WakeReason) (f : Oracle) (b : Bus)
    (hf : f b.opIndex = true) :
    updateWakeReason w0 f b =
      (let b1 : Bus := { b with opIndex := b.opIndex + 1,
                                trace := b.trace ++ [Op.read REG_STATUS 1] }
       let status := b.regs REG_STATUS
       if status &&& REG_STATUS_WDT ≠ 0 then
         ((true, WakeReason.WATCHDOG), (clearRegisterBit REG_STATUS REG_STATUS_WDT f b1).2)
       else
         let rs := isBitSet REG_SLEEP_CTRL REG_SLEEP_CTRL_SLST f b1
         if rs.1 then ((true, WakeReason.DEEP_POWER_DOWN), rs.2)
         else if status &&& REG_STATUS_TIM ≠ 0 then
           ((true, WakeReason.COUNTDOWN_TIMER),
            (clearRegisterBit REG_STATUS REG_STATUS_TIM f rs.2).2)
         else if status &&& REG_STATUS_ALM ≠ 0 then
           ((true, WakeReason.ALARM),
            (clearRegisterBit REG_STATUS REG_STATUS_ALM f rs.2).2)
         else ((true, w0), rs.2)) := by
  unfold updateWakeReason
  rw [readRegisters_one_true f REG_STATUS b hf]
  rfl

/-- C2: `updateWakeReason` (on a healthy bus) classifies the wake cause by
testing, in this priority order, the watchdog status bit, the
sleep-occurred flag, the countdown-timer status bit, and the alarm status
bit; the first match wins and its status bit is cleared, except for
DeepPowerDown, which leaves every register unchanged; in particular when
both the watchdog and alarm bits are set the result is `WATCHDOG` and the
alarm bit remains set. -/
theorem updateWakeReason_priority (regs : Nat → Nat) (w0 : WakeReason) :
    (updateWakeReason w0 allTrue (mkBus regs)).1.1 = true ∧
    (regs REG_STATUS &&& REG_STATUS_WDT ≠ 0 →
      (updateWakeReason w0 allTrue (mkBus regs)).1.2 = WakeReason.WATCHDOG ∧
      (updateWakeReason w0 allTrue (mkBus regs)).2.regs REG_STATUS &&& REG_STATUS_WDT = 0 ∧
      (updateWakeReason w0 allTrue (mkBus regs)).2.regs REG_STATUS &&& REG_STATUS_ALM
        = regs REG_STATUS &&& REG_STATUS_ALM ∧
      (updateWakeReason w0 allTrue (mkBus regs)).2.regs REG_STATUS &&& REG_STATUS_TIM
        = regs REG_STATUS &&& REG_STATUS_TIM) ∧
    (regs REG_STATUS &&& REG_STATUS_WDT = 0 →
      regs REG_SLEEP_CTRL &&& REG_SLEEP_CTRL_SLST ≠ 0 →
      (updateWakeReason w0 allTrue (mkBus regs)).1.2 = WakeReason.DEEP_POWER_DOWN ∧
      (updateWakeReason w0 allTrue (mkBus regs)).2.regs = regs) ∧
    (regs REG_STATUS &&& REG_STATUS_WDT = 0 →
      regs REG_SLEEP_CTRL &&& REG_SLEEP_CTRL_SLST = 0 →
      regs REG_STATUS &&& REG_STATUS_TIM ≠ 0 →
      (updateWakeReason w0 allTrue (mkBus regs)).1.2 = WakeReason.COUNTDOWN_TIMER ∧
      (updateWakeReason w0 allTrue (mkBus regs)).2.regs REG_STATUS &&& REG_STATUS_TIM = 0 ∧
      (updateWakeReason w0 allTrue (mkBus regs)).2.regs REG_STATUS &&& REG_STATUS_ALM
        = regs REG_STATUS &&& REG_STATUS_ALM) ∧
    (regs REG_STATUS &&& REG_STATUS_WDT = 0 →
      regs REG_SLEEP_CTRL &&& REG_SLEEP_CTRL_SLST = 0 →
      regs REG_STATUS &&& REG_STATUS_TIM = 0 →
      regs REG_STATUS &&& REG_STATUS_ALM ≠ 0 →
      (updateWakeReason w0 allTrue (mkBus regs)).1.2 = WakeReason.ALARM ∧
      (updateWakeReason w0 allTrue (mkBus regs)).2.regs REG_STATUS &&& REG_STATUS_ALM = 0) ∧
    (regs REG_STATUS &&& REG_STATUS_WDT = 0 →
      regs REG_SLEEP_CTRL &&& REG_SLEEP_CTRL_SLST = 0 →
      regs REG_STATUS &&& REG_STATUS_TIM = 0 →
      regs REG_STATUS &&& REG_STATUS_ALM = 0 →
      (updateWakeReason w0 allTrue (mkBus regs)).1.2 = w0 ∧
      (updateWakeReason w0 allTrue (mkBus regs)).2.regs = regs) := by
  have hu := updateWakeReason_eq w0 allTrue (mkBus regs) rfl
  simp only [mkBus] at hu ⊢
  by_cases h1 : regs REG_STATUS &&& REG_STATUS_WDT ≠ 0
  · -- watchdog branch
    rw [if_pos h1] at hu
    have hcl := clearRegisterBit_changes allTrue REG_STATUS REG_STATUS_WDT
      ⟨regs, 0 + 1, [] ++ [Op.read REG_STATUS 1]⟩ rfl rfl
      (and_mask_ne_self (by decide) h1)
    rw [hu]
    have hregs : (clearRegisterBit REG_STATUS REG_STATUS_WDT allTrue
        ⟨regs, 0 + 1, [] ++ [Op.read REG_STATUS 1]⟩).2.regs
        = updateRange regs REG_STATUS [regs REG_STATUS &&& compl8 REG_STATUS_WDT] :=
      hcl.2
    refine ⟨rfl, ?_, ?_, ?_, ?_, ?_⟩
    · intro _
      refine ⟨rfl, ?_, ?_, ?_⟩
      · rw [hregs, updateRange_single_same, Nat.land_assoc,
          (by decide : compl8 REG_STATUS_WDT &&& REG_STATUS_WDT = 0), Nat.and_zero]
      · rw [hregs, updateRange_single_same, Nat.land_assoc,
          (by decide : compl8 REG_STATUS_WDT &&& REG_STATUS_ALM = REG_STATUS_ALM)]
      · rw [hregs, updateRange_single_same, Nat.land_assoc,
          (by decide : compl8 REG_STATUS_WDT &&& REG_STATUS_TIM = REG_STATUS_TIM)]
    · intro hw _
      exact absurd hw h1
    · intro hw _ _
      exact absurd hw h1
    · intro hw _ _ _
      exact absurd hw h1
    · intro hw _ _ _
      exact absurd hw h1
  · rw [if_neg h1] at hu
    push_neg at h1
    rw [isBitSet_eq allTrue REG_SLEEP_CTRL REG_SLEEP_CTRL_SLST _ rfl] at hu
    by_cases h2 : regs REG_SLEEP_CTRL &&& REG_SLEEP_CTRL_SLST ≠ 0
    · -- deep power down branch
      rw [if_pos (by simpa using h2)] at hu
      rw [hu]
      exact ⟨rfl, fun hw => absurd h1 hw, fun _ _ => ⟨rfl, rfl⟩,
        fun _ hs _ => absurd hs h2, fun _ hs _ _ => absurd hs h2,
        fun _ hs _ _ => absurd hs h2⟩
    · push_neg at h2
      rw [if_neg (by simpa using h2)] at hu
      by_cases h3 : regs REG_STATUS &&& REG_STATUS_TIM ≠ 0
      · -- countdown timer branch
        rw [if_pos h3] at hu
        have hcl := clearRegisterBit_changes allTrue REG_STATUS REG_STATUS_TIM
          ⟨regs, 0 + 1 + 1, ([] ++ [Op.read REG_STATUS 1]) ++ [Op.read REG_SLEEP_CTRL 1]⟩
          rfl rfl (and_mask_ne_self (by decide) h3)
        rw [hu]
        refine ⟨rfl, fun hw => absurd h1 hw, fun _ hs => absurd h2 hs, ?_, ?_, ?_⟩
        · intro _ _ _
          refine ⟨rfl, ?_, ?_⟩
          · rw [hcl.2, updateRange_single_same, Nat.land_assoc,
              (by decide : compl8 REG_STATUS_TIM &&& REG_STATUS_TIM = 0), Nat.and_zero]
          · rw [hcl.2, updateRange_single_same, Nat.land_assoc,
              (by decide : compl8 REG_STATUS_TIM &&& REG_STATUS_ALM = REG_STATUS_ALM)]
        · intro _ _ ht _
          exact absurd ht h3
        · intro _ _ ht _
          exact absurd ht h3
      · push_neg at h3
        rw [if_neg (by simpa using h3)] at hu
        by_cases h4 : regs REG_STATUS &&& REG_STATUS_ALM ≠ 0
        · -- alarm branch
          rw [if_pos h4] at hu
          have hcl := clearRegisterBit_changes allTrue REG_STATUS REG_STATUS_ALM
            ⟨regs, 0 + 1 + 1, ([] ++ [Op.read REG_STATUS 1]) ++ [Op.read REG_SLEEP_CTRL 1]⟩
            rfl rfl (and_mask_ne_self (by decide) h4)
          rw [hu]
          refine ⟨rfl, fun hw => absurd h1 hw, fun _ hs => absurd h2 hs,
            fun _ _ ht => absurd h3 ht, ?_, ?_⟩
          · intro _ _ _ _
            refine ⟨rfl, ?_⟩
            rw [hcl.2, updateRange_single_same, Nat.land_assoc,
              (by decide : compl8 REG_STATUS_ALM &&& REG_STATUS_ALM = 0), Nat.and_zero]
          · intro _ _ _ ha
            exact absurd ha h4
        · push_neg at h4
          rw [if_neg (by simpa using h4)] at hu
          rw [hu]
          exact ⟨rfl, fun hw => absurd h1 hw, fun _ hs => absurd h2 hs,
            fun _ _ ht => absurd h3 ht, fun _ _ _ ha => absurd h4 ha,
            fun _ _ _ _ => ⟨rfl, rfl⟩⟩

/-- Witness for C2: status register 0x24 (watchdog and alarm bits set),
sleep flag clear: the reported reason is `WATCHDOG`, the watchdog bit is
cleared, and the alarm bit remains set. -/
theorem updateWakeReason_priority_witness :
    (updateWakeReason WakeReason.UNKNOWN allTrue
        (mkBus fun a => if a = 15 then 36 else 0)).1.2 = WakeReason.WATCHDOG ∧
    (updateWakeReason WakeReason.UNKNOWN allTrue
        (mkBus fun a => if a = 15 then 36 else 0)).2.regs REG_STATUS &&& REG_STATUS_WDT
      = 0 ∧
    (updateWakeReason WakeReason.UNKNOWN allTrue
        (mkBus fun a => if a = 15 then 36 else 0)).2.regs REG_STATUS &&& REG_STATUS_ALM
      = (fun a => if a = 15 then 36 else 0 : Nat → Nat) REG_STATUS &&& REG_STATUS_ALM := by
  have h := (updateWakeReason_priority (fun a => if a = 15 then 36 else 0)
    WakeReason.UNKNOWN).2.1 (by decide)
  exact ⟨h.1, h.2.1, h.2.2.1⟩

/-! ### C10: setRtcFromTm and the WRTC bit -/

set_option maxRecDepth 4000 in
lemma byteFacts : ∀ v < 256, v &&& 255 = v ∧
    (v &&& 1 ≠ 0 → v ||| 1 = v) ∧
    (v &&& 1 = 0 → v ||| 1 ≠ v ∧ (v ||| 1) &&& 1 ≠ 0) := by decide

/-- Model of `isRTCSet` (on a healthy bus) reports `false` whenever the WRTC bit is
set. -/
lemma isRTCSet_false_of_set (b : Bus) (h : b.regs REG_CTRL_1 &&& REG_CTRL_1_WRTC ≠ 0) :
    (isRTCSet allTrue b).1 = false := by
  unfold isRTCSet isBitClear
  rw [readRegisters_one_true allTrue REG_CTRL_1 b rfl]
  simp [decide_eq_false h]

/-- A `maskRegister` call only appends to the trace. -/
lemma maskRegister_trace_ext (f : Oracle) (a aV oV : Nat) (b : Bus) :
    ∃ t, (maskRegister a aV oV f b).2.trace = b.trace ++ t := by
  by_cases hf : f b.opIndex = true
  · rw [maskRegister_eq_true f a aV oV b hf]
    by_cases hne : ((b.regs a &&& aV) ||| oV) ≠ b.regs a
    · rw [if_pos hne]
      exact ⟨[Op.read a 1, Op.write a [(b.regs a &&& aV) ||| oV]], by simp [writeRegister]⟩
    · rw [if_neg hne]
      exact ⟨[Op.read a 1], rfl⟩
  · rw [maskRegister_eq_false f a aV oV b (by simpa using hf)]
    exact ⟨[Op.read a 1], rfl⟩

/-- C10 counterexample: starting from control register 1 = 0x12 (WRTC
clear), with the first three transactions succeeding and the fourth — the
read issued by the final WRTC-clearing `clearRegisterBit` — failing,
`setRtcFromTm` still returns `true`: the result of the clear step is
discarded, so it is false that the call returns `false` whenever one of its
steps fails.  (WRTC is left set, so the driver afterwards reports the RTC as
unset despite the reported success.) -/
theorem setRtcFromTm_clear_failure_ignored :
    (setRtcFromTm ⟨0, 0, 0, 1, 0, 120, 0⟩ (fun n => decide (n ≠ 3))
        (mkBus fun a => if a = 16 then 18 else 0)).1 = true ∧
    (fun n => decide (n ≠ 3) : Oracle) 3 = false ∧
    (setRtcFromTm ⟨0, 0, 0, 1, 0, 120, 0⟩ (fun n => decide (n ≠ 3))
        (mkBus fun a => if a = 16 then 18 else 0)).2.opIndex = 4 ∧
    (setRtcFromTm ⟨0, 0, 0, 1, 0, 120, 0⟩ (fun n => decide (n ≠ 3))
        (mkBus fun a => if a = 16 then 18 else 0)).2.regs REG_CTRL_1 &&& REG_CTRL_1_WRTC
      ≠ 0 := by
  exact ⟨by decide, by decide, by decide, by decide⟩

/-- C10 (amended): `setRtcFromTm` attempts to clear WRTC only after the
calendar-register write has succeeded; if setting WRTC or the calendar
write fails, the call returns `false`, never having issued a write that
clears WRTC, and when the RTC was unset before the call (WRTC set) it is
still unset afterwards, so `isRTCSet` does not report the RTC as set after
such a failed attempt.  (The final clear's own failure does not affect the
return value — see the counterexample.) -/
theorem setRtcFromTm_wrtc_discipline (f : Oracle) (t : Tm) (regs : Nat → Nat)
    (hv : regs REG_CTRL_1 < 256) :
    ((setRtcFromTm t f (mkBus regs)).1 = false →
      (∀ v, Op.write REG_CTRL_1 [v] ∈ (setRtcFromTm t f (mkBus regs)).2.trace →
        v &&& REG_CTRL_1_WRTC ≠ 0) ∧
      (regs REG_CTRL_1 &&& REG_CTRL_1_WRTC ≠ 0 →
        (setRtcFromTm t f (mkBus regs)).2.regs REG_CTRL_1 &&& REG_CTRL_1_WRTC ≠ 0 ∧
        (isRTCSet allTrue (setRtcFromTm t f (mkBus regs)).2).1 = false)) ∧
    ((setRtcFromTm t f (mkBus regs)).1 = true →
      Op.write REG_HUNDREDTH (0x00 :: tmToRegisters t true)
        ∈ (setRtcFromTm t f (mkBus regs)).2.trace) := by
  have hwrtc1 : REG_CTRL_1_WRTC = 1 := rfl
  have hv255 : regs REG_CTRL_1 &&& 255 = regs REG_CTRL_1 := (byteFacts _ hv).1
  simp only [mkBus]
  cases hf0 : f 0 with
  | false =>
    have hr : setRtcFromTm t f ⟨regs, 0, []⟩
        = (false, { regs := regs, opIndex := 0 + 1,
                    trace := [] ++ [Op.read REG_CTRL_1 1] }) := by
      unfold setRtcFromTm setRegisterBit
      rw [maskRegister_eq_false f REG_CTRL_1 255 REG_CTRL_1_WRTC ⟨regs, 0, []⟩ hf0]
      rfl
    rw [hr]
    refine ⟨fun _ => ⟨fun v hv' => ?_, fun hw => ⟨hw, isRTCSet_false_of_set _ hw⟩⟩,
      fun ht => by simp at ht⟩
    simp at hv'
  | true =>
    have heq := maskRegister_eq_true f REG_CTRL_1 255 REG_CTRL_1_WRTC ⟨regs, 0, []⟩ hf0
    dsimp only at heq
    rw [hwrtc1, hv255] at heq
    by_cases hb : regs REG_CTRL_1 &&& 1 ≠ 0
    · -- WRTC already set: the set step issues no write
      have hor := (byteFacts _ hv).2.1 hb
      rw [if_neg (not_not_intro hor)] at heq
      have hr1 : setRegisterBit REG_CTRL_1 REG_CTRL_1_WRTC f ⟨regs, 0, []⟩
          = (true, { regs := regs, opIndex := 0 + 1,
                     trace := [] ++ [Op.read REG_CTRL_1 1] }) := by
        unfold setRegisterBit
        rw [hwrtc1]
        exact heq
      cases hf1 : f 1 with
      | false =>
        have hr : setRtcFromTm t f ⟨regs, 0, []⟩
            = (false, (writeRegisters f REG_HUNDREDTH (0x00 :: tmToRegisters t true)
                { regs := regs, opIndex := 0 + 1,
                  trace := [] ++ [Op.read REG_CTRL_1 1] }).2) := by
          unfold setRtcFromTm
          rw [hr1]
          simp only [if_true]
          rw [if_neg]
          simp [hf1]
        rw [hr]
        refine ⟨fun _ => ⟨fun v hv' => ?_, fun hw => ?_⟩, fun ht => by simp [hf1] at ht⟩
        · simp [REG_CTRL_1, REG_HUNDREDTH] at hv'
        · have hregs : (writeRegisters f REG_HUNDREDTH (0x00 :: tmToRegisters t true)
              { regs := regs, opIndex := 0 + 1,
                trace := [] ++ [Op.read REG_CTRL_1 1] }).2.regs = regs :=
            writeRegisters_regs_false _ _ _ _ (by simpa using hf1)
          rw [hregs]
          exact ⟨hw, isRTCSet_false_of_set _ (by rw [hregs]; exact hw)⟩
      | true =>
        have hr : setRtcFromTm t f ⟨regs, 0, []⟩
            = (true, (clearRegisterBit REG_CTRL_1 REG_CTRL_1_WRTC f
                (writeRegisters f REG_HUNDREDTH (0x00 :: tmToRegisters t true)
                  { regs := regs, opIndex := 0 + 1,
                    trace := [] ++ [Op.read REG_CTRL_1 1] }).2).2) := by
          unfold setRtcFromTm
          rw [hr1]
          simp only [if_true]
          rw [if_pos]
          simp [hf1]
        rw [hr]
        refine ⟨fun hfalse => by simp at hfalse, fun _ => ?_⟩
        unfold clearRegisterBit
        obtain ⟨tl, htl⟩ := maskRegister_trace_ext f REG_CTRL_1 (compl8 REG_CTRL_1_WRTC) 0
          (writeRegisters f REG_HUNDREDTH (0x00 :: tmToRegisters t true)
            { regs := regs, opIndex := 0 + 1, trace := [] ++ [Op.read REG_CTRL_1 1] }).2
        rw [htl]
        simp
    · -- WRTC clear: the set step writes regs(CTRL1) | 1
      push_neg at hb
      have hbf := (byteFacts _ hv).2.2 hb
      rw [if_pos hbf.1] at heq
      have hr1 : setRegisterBit REG_CTRL_1 REG_CTRL_1_WRTC f ⟨regs, 0, []⟩
          = writeRegister REG_CTRL_1 (regs REG_CTRL_1 ||| 1) f
              { regs := regs, opIndex := 0 + 1,
                trace := [] ++ [Op.read REG_CTRL_1 1] } := by
        unfold setRegisterBit
        rw [hwrtc1]
        exact heq
      cases hf1 : f 1 with
      | false =>
        have hr : setRtcFromTm t f ⟨regs, 0, []⟩
            = (false, (writeRegister REG_CTRL_1 (regs REG_CTRL_1 ||| 1) f
                { regs := regs, opIndex := 0 + 1,
                  trace := [] ++ [Op.read REG_CTRL_1 1] }).2) := by
          unfold setRtcFromTm
          rw [hr1]
          rw [if_neg]
          simp [writeRegister, hf1]
        rw [hr]
        refine ⟨fun _ => ⟨fun v hv' => ?_,
          fun hw => absurd hb (by rw [hwrtc1] at hw; exact hw)⟩,
          fun ht => by simp [writeRegister, hf1] at ht⟩
        simp [writeRegister, REG_CTRL_1, REG_HUNDREDTH] at hv'
        subst hv'
        rw [hwrtc1]
        exact hbf.2
      | true =>
        have hwr : writeRegister REG_CTRL_1 (regs REG_CTRL_1 ||| 1) f
            { regs := regs, opIndex := 0 + 1, trace := [] ++ [Op.read REG_CTRL_1 1] }
            = (true, { regs := updateRange regs REG_CTRL_1 [regs REG_CTRL_1 ||| 1],
                       opIndex := 0 + 1 + 1,
                       trace := ([] ++ [Op.read REG_CTRL_1 1])
                         ++ [Op.write REG_CTRL_1 [regs REG_CTRL_1 ||| 1]] }) := by
          unfold writeRegister writeRegisters
          simp [hf1]
        cases hf2 : f 2 with
        | false =>
          have hr : setRtcFromTm t f ⟨regs, 0, []⟩
              = (false, (writeRegisters f REG_HUNDREDTH (0x00 :: tmToRegisters t true)
                  { regs := updateRange regs REG_CTRL_1 [regs REG_CTRL_1 ||| 1],
                    opIndex := 0 + 1 + 1,
                    trace := ([] ++ [Op.read REG_CTRL_1 1])
                      ++ [Op.write REG_CTRL_1 [regs REG_CTRL_1 ||| 1]] }).2) := by
            unfold setRtcFromTm
            rw [hr1, hwr]
            simp only [if_true]
            rw [if_neg]
            simp [hf2]
          rw [hr]
          refine ⟨fun _ => ⟨fun v hv' => ?_,
            fun hw => absurd hb (by rw [hwrtc1] at hw; exact hw)⟩,
            fun ht => by simp [hf2] at ht⟩
          simp [REG_CTRL_1, REG_HUNDREDTH] at hv'
          subst hv'
          rw [hwrtc1]
          exact hbf.2
        | true =>
          have hr : setRtcFromTm t f ⟨regs, 0, []⟩
              = (true, (clearRegisterBit REG_CTRL_1 REG_CTRL_1_WRTC f
                  (writeRegisters f REG_HUNDREDTH (0x00 :: tmToRegisters t true)
                    { regs := updateRange regs REG_CTRL_1 [regs REG_CTRL_1 ||| 1],
                      opIndex := 0 + 1 + 1,
                      trace := ([] ++ [Op.read REG_CTRL_1 1])
                        ++ [Op.write REG_CTRL_1 [regs REG_CTRL_1 ||| 1]] }).2).2) := by
            unfold setRtcFromTm
            rw [hr1, hwr]
            simp only [if_true]
            rw [if_pos]
            simp [hf2]
          rw [hr]
          refine ⟨fun hfalse => by simp at hfalse, fun _ => ?_⟩
          unfold clearRegisterBit
          obtain ⟨tl, htl⟩ := maskRegister_trace_ext f REG_CTRL_1 (compl8 REG_CTRL_1_WRTC) 0
            (writeRegisters f REG_HUNDREDTH (0x00 :: tmToRegisters t true)
              { regs := updateRange regs REG_CTRL_1 [regs REG_CTRL_1 ||| 1],
                opIndex := 0 + 1 + 1,
                trace := ([] ++ [Op.read REG_CTRL_1 1])
                  ++ [Op.write REG_CTRL_1 [regs REG_CTRL_1 ||| 1]] }).2
          rw [htl]
          simp


/-- Witness for C10 (amended): with every transaction failing and WRTC set
(control register 1 = 0x13), the failed call leaves WRTC set and `isRTCSet`
still reports the RTC as unset. -/
theorem setRtcFromTm_wrtc_discipline_witness :
    (setRtcFromTm ⟨0, 0, 0, 1, 0, 120, 0⟩ (fun _ => false)
        (mkBus fun a => if a = 16 then 19 else 0)).2.regs REG_CTRL_1 &&& REG_CTRL_1_WRTC
      ≠ 0 ∧
    (isRTCSet allTrue (setRtcFromTm ⟨0, 0, 0, 1, 0, 120, 0⟩ (fun _ => false)
        (mkBus fun a => if a = 16 then 19 else 0)).2).1 = false := by
  have h := ((setRtcFromTm_wrtc_discipline (fun _ => false) ⟨0, 0, 0, 1, 0, 120, 0⟩
    (fun a => if a = 16 then 19 else 0) (by decide)).1 rfl).2 (by decide)
  exact h

end AB1805
